import Mathlib

/-!
Verification of the interview-proctor session engine: a shallow embedding of
`interview_conductor.py` (question-plan derivation, question generation with
fallback, the per-question evaluating step with the time-budget skip-ahead
rule, answer recording, session finalisation) and `intrusion_detector.py`
(reference-face bounding box, the monitoring loop's cooldown-guarded event
counter, the intrusion-difference check, and the status snapshot).
-/

namespace InterviewProctor

/-! ### Question plan derivation (`InterviewConductor.setup_interview`) -/

/-- Fixed transition buffer added to each answer slot, in seconds
(`buffer_time_per_question = 15` in `setup_interview`). -/
def buffer_time_per_question : Nat := 15

/-- Number of questions derived from the total interview duration (in seconds)
and the per-answer time (in seconds), as computed in `setup_interview`:
`max(1, min(10, int(total_available_seconds / time_per_question)))` where
`time_per_question = answer_time + buffer_time_per_question`.  Python's
`int(...)` of a non-negative quotient is the floor, which is `Nat` division. -/
def derive_num_questions (totalDurationSeconds perAnswerSeconds : Nat) : Nat :=
  max 1 (min 10 (totalDurationSeconds / (perAnswerSeconds + buffer_time_per_question)))

/-- The spec's clamp function, written from the spec's words:
`clamp(x, lo, hi)` moves `x` into `[lo, hi]`. -/
def spec_clamp (x lo hi : Nat) : Nat := min (max x lo) hi

/-! ### Evaluating step with the time-budget skip-ahead rule
(`InterviewConductor.start_interview`, lines 377-388) -/

/-- One evaluating step of the session loop after an answer window finishes.
`idx` is the index of the question just answered; the code first advances
(`current_question_index += 1`), then applies the skip-ahead rule: if
`remaining_minutes < 2` and the advanced index is below `numQuestions - 1`,
it announces `skipped = numQuestions - current_question_index - 1` questions
and jumps the index to `numQuestions - 1`.  Returns the new index paired with
the announced skip count (`none` when no skip happened). -/
def evaluating_step (numQuestions idx : Nat) (totalDurationMinutes elapsedMinutes : ℚ) :
    Nat × Option Nat :=
  let idx1 := idx + 1
  let remainingMinutes := totalDurationMinutes - elapsedMinutes
  if remainingMinutes < 2 ∧ idx1 < numQuestions - 1 then
    (numQuestions - 1, some (numQuestions - idx1 - 1))
  else
    (idx1, none)

/-! ### Question generation (`InterviewConductor.generate_questions`) -/

/-- Python's `str.strip()`: remove leading and trailing whitespace.  Written
structurally over the character list so that it evaluates inside the kernel
(the library's `String.trim` is defined by well-founded recursion and does
not reduce definitionally). -/
def pyStrip (s : String) : String :=
  String.mk
    (((s.toList.dropWhile Char.isWhitespace).reverse.dropWhile Char.isWhitespace).reverse)

/-- Line markers stripped from the collaborator's lines, in the order the
code tries them (`for prefix in [...]` in `generate_questions`). -/
def lineMarkers : List String :=
  ["- ", "* ", ". ", "â€¢ ", "1. ", "2. ", "3. ", "4. ", "5. ",
   "6. ", "7. ", "8. ", "9. ", "10. "]

/-- Cleaning of one response line: an initial strip, then each marker in
order is removed (with a further strip) whenever the current line starts
with it, exactly as the inner `for prefix in [...]` loop does. -/
def cleanLine (line : String) : String :=
  lineMarkers.foldl
    (fun l p => if l.startsWith p then pyStrip (l.drop p.length) else l) (pyStrip line)

/-- The filter applied after cleaning: keep a line iff it is non-empty and
its lowercase form does not start with "here", "question" or "following". -/
def keepLine (l : String) : Bool :=
  !(l == "") &&
    !(l.toLower.startsWith "here" || l.toLower.startsWith "question" ||
      l.toLower.startsWith "following")

/-- Parsing of the collaborator's raw response into usable question lines:
strip the response, split on newlines, clean each line, keep the usable
ones (the `for line in lines` loop of `generate_questions`). -/
def extractQuestions (response : String) : List String :=
  (((pyStrip response).splitOn "\n").map cleanLine).filter keepLine

/-- The fixed fallback question bank (`generic_questions` in
`generate_questions`); entry 2 interpolates the job role. -/
def genericQuestions (role : String) : List String :=
  ["Tell me about yourself and your experience.",
   "Why are you interested in this " ++ role ++ " position?",
   "What are your greatest strengths and weaknesses?",
   "Describe a challenging situation you faced and how you handled it.",
   "Where do you see yourself in five years?",
   "What do you know about our company?",
   "How do you handle stress and pressure?",
   "What is your greatest professional achievement?",
   "How would your colleagues describe you?",
   "Do you have any questions for us?"]

/-- The usable lines obtained from the collaborator: none at all when the
call returned no response, otherwise the parsed lines. -/
def usableLines : Option String → List String
  | none => []
  | some r => extractQuestions r

/-- `generate_questions`: from the derived question count, the job role and
the collaborator's optional raw response, produce the question list and the
parallel answer list.  A missing response, or a response with zero usable
lines, raises in the code and lands in the `except` fallback, which adopts
the first `numQuestions` entries of the fallback bank; a surplus is
truncated; a shortfall is padded from the front of the fallback bank; the
answers are always initialised to one empty string per question. -/
def generate_questions (numQuestions : Nat) (role : String) (response : Option String) :
    List String × List String :=
  match response with
  | some r =>
    let questions := extractQuestions r
    if questions.isEmpty then
      -- `raise Exception("No valid questions generated")` → fallback branch
      let qs := (genericQuestions role).take numQuestions
      (qs, List.replicate qs.length "")
    else
      let qs :=
        if numQuestions < questions.length then
          questions.take numQuestions
        else if questions.length < numQuestions then
          questions ++ (genericQuestions role).take (numQuestions - questions.length)
        else
          questions
      (qs, List.replicate qs.length "")
  | none =>
    -- `raise Exception("No response from Ollama API")` → fallback branch
    let qs := (genericQuestions role).take numQuestions
    (qs, List.replicate qs.length "")

/-! ### Answer recording (`InterviewConductor.record_audio`) -/

/-- Sentinel stored when no answer was processed. -/
def noAnswerSentinel : String := "[No answer recorded]"

/-- The fate of one captured audio fragment at transcription time:
`some t` when `recognize_google` returns text `t`, `none` when it raises
`UnknownValueError` or `RequestError` (logged and skipped). -/
abbrev Fragment := Option String

/-- The text `record_audio` stores for one question, given the captured
fragments (in chronological order, tagged with their transcription outcome)
and the `interview_in_progress` flag at processing time.  The code builds
`full_text` by appending a space and each successfully transcribed text in
order, then strips it; it does so only `if audio_data and
self.interview_in_progress`, and otherwise stores the sentinel. -/
def record_audio_result (audioData : List Fragment) (inProgress : Bool) : String :=
  if !audioData.isEmpty && inProgress then
    pyStrip (audioData.foldl
      (fun acc r => match r with
        | some t => acc ++ " " ++ t
        | none => acc) "")
  else
    noAnswerSentinel

/-- The slot update performed by `record_audio` on the answers list:
`self.candidate_answers[question_index] = ...`. -/
def record_audio_update (answers : List String) (questionIndex : Nat)
    (audioData : List Fragment) (inProgress : Bool) : List String :=
  answers.set questionIndex (record_audio_result audioData inProgress)

/-- The concatenation the spec describes, applied to the list of
successfully transcribed texts in chronological order: join with single
spaces and trim the surroundings. -/
def chronological_concat (texts : List String) : String :=
  pyStrip (texts.foldl (fun acc t => acc ++ " " ++ t) "")

/-! ### Reference-face bounding box (`IntrusionDetector.capture_reference_face`) -/

/-- Fixed padding around the detected face (`bbox_padding = 20`). -/
def bbox_padding : ℤ := 20

/-- The padded, clamped bounding box stored by `capture_reference_face` for a
detected face rectangle `(x, y, w, h)` in a frame of width `frameW` and
height `frameH` (`frame.shape[1]` and `frame.shape[0]`):
`x1 = max(0, x - 20)`, `y1 = max(0, y - 20)`, `x2 = min(frameW, x + w + 20)`,
`y2 = min(frameH, y + h + 20)`. -/
def padded_bbox (frameW frameH x y w h : ℤ) : ℤ × ℤ × ℤ × ℤ :=
  (max 0 (x - bbox_padding), max 0 (y - bbox_padding),
   min frameW (x + w + bbox_padding), min frameH (y + h + bbox_padding))

/-! ### Intrusion difference check (`IntrusionDetector._check_intrusion`) -/

/-- Per-pixel binary-threshold cutoff (`cv2.threshold(diff, 30, 255, ...)`). -/
def pixel_diff_cutoff : Nat := 30

/-- Fraction of a region's pixels that must differ to signal an intrusion
(`intrusion_threshold = 0.3`). -/
def intrusion_threshold : ℚ := 3 / 10

/-- The per-pixel difference fraction computed by `_check_intrusion`: the
region is represented as the list of (reference, current) grayscale
intensity pairs; a pixel counts when its absolute difference exceeds the
cutoff 30, and the count is divided by the number of pixels of the region. -/
def diff_fraction (pixels : List (Nat × Nat)) : ℚ :=
  ((pixels.countP fun p => pixel_diff_cutoff < Nat.dist p.1 p.2) : ℚ) /
    (pixels.length : ℚ)

/-- `_check_intrusion`'s verdict: `diff_percentage > self.intrusion_threshold`. -/
def check_intrusion (pixels : List (Nat × Nat)) : Bool :=
  decide (intrusion_threshold < diff_fraction pixels)

/-! ### Intrusion detector state machine (`IntrusionDetector`) -/

/-- The detector's mutable fields set in `IntrusionDetector.__init__` that the
claims read: whether a reference was captured (`reference_face`/`face_bbox`
non-`None`), `monitoring`, `intrusion_detected`, `intrusion_count` and
`last_intrusion_time`. -/
structure DetectorState where
  referenceCaptured : Bool
  monitoring : Bool
  intrusion_detected : Bool
  intrusion_count : Nat
  last_intrusion_time : ℚ
deriving Repr, DecidableEq

/-- `__init__`: no reference, not monitoring, `intrusion_detected = False`,
`intrusion_count = 0`, `last_intrusion_time = 0`. -/
def initDetector : DetectorState :=
  { referenceCaptured := false, monitoring := false, intrusion_detected := false,
    intrusion_count := 0, last_intrusion_time := 0 }

/-- Minimum wall-clock spacing between recorded intrusion events
(`intrusion_cooldown = 5`). -/
def intrusion_cooldown : ℚ := 5

/-- `capture_reference_face`: on success it stores the reference region and
box; on any failure (camera, frame grab, no face detected) state is kept. -/
def capture_reference_face (s : DetectorState) (success : Bool) : DetectorState :=
  if success then { s with referenceCaptured := true } else s

/-- `start_monitoring`: fails (state unchanged) without a reference; a no-op
when already monitoring; otherwise sets `monitoring = True`, resets
`intrusion_detected = False` and `intrusion_count = 0`. -/
def start_monitoring (s : DetectorState) : DetectorState :=
  if !s.referenceCaptured then s
  else if s.monitoring then s
  else { s with monitoring := true, intrusion_detected := false, intrusion_count := 0 }

/-- `stop_monitoring`: clears the `monitoring` flag (thread join and camera
release carry no modelled state). -/
def stop_monitoring (s : DetectorState) : DetectorState :=
  { s with monitoring := false }

/-- One iteration of `_monitor_loop` on a successfully grabbed frame: `roi`
is the cropped region paired pixelwise with the reference, `now` the wall
clock.  When the loop is live and `_check_intrusion` fires and
`time.time() - self.last_intrusion_time > self.intrusion_cooldown`, the
counter is incremented and the event time recorded; otherwise nothing
changes (the debug-image write carries no modelled state). -/
def monitor_iteration (s : DetectorState) (roi : List (Nat × Nat)) (now : ℚ) :
    DetectorState :=
  if s.monitoring ∧ check_intrusion roi = true ∧
      intrusion_cooldown < now - s.last_intrusion_time then
    { s with intrusion_count := s.intrusion_count + 1, last_intrusion_time := now }
  else s

/-- A whole monitoring run: fold the loop over a feed of (region, time)
frames. -/
def run_monitor (s : DetectorState) : List (List (Nat × Nat) × ℚ) → DetectorState
  | [] => s
  | (roi, t) :: rest => run_monitor (monitor_iteration s roi t) rest

/-- The wall-clock times at which the run increments `intrusion_count`. -/
def intrusion_event_times (s : DetectorState) : List (List (Nat × Nat) × ℚ) → List ℚ
  | [] => []
  | (roi, t) :: rest =>
    let s2 := monitor_iteration s roi t
    if s.intrusion_count < s2.intrusion_count then
      t :: intrusion_event_times s2 rest
    else
      intrusion_event_times s2 rest

/-- The operations a client can drive the detector through. -/
inductive DetectorOp where
  | capture (success : Bool)
  | start
  | stop
  | monitor (roi : List (Nat × Nat)) (now : ℚ)

/-- Interpretation of one operation on the detector state. -/
def detector_apply (s : DetectorState) : DetectorOp → DetectorState
  | DetectorOp.capture ok => capture_reference_face s ok
  | DetectorOp.start => start_monitoring s
  | DetectorOp.stop => stop_monitoring s
  | DetectorOp.monitor roi t => monitor_iteration s roi t

/-- The detector state after a fresh `IntrusionDetector()` runs a sequence of
operations. -/
def runDetector (ops : List DetectorOp) : DetectorState :=
  ops.foldl detector_apply initDetector

/-- The snapshot returned by `get_intrusion_status`. -/
structure IntrusionStatus where
  monitoring : Bool
  intrusion_detected : Bool
  intrusion_count : Nat
deriving Repr, DecidableEq

/-- `get_intrusion_status`: a copy of `monitoring`, `intrusion_detected` and
`intrusion_count`. -/
def get_intrusion_status (s : DetectorState) : IntrusionStatus :=
  { monitoring := s.monitoring, intrusion_detected := s.intrusion_detected,
    intrusion_count := s.intrusion_count }

/-! ### Session finalisation (`end_interview`, `stop_interview`) -/

/-- Final session states of the orchestrator's state machine. -/
inductive SessionOutcome where
  | completed
  | terminated
deriving Repr, DecidableEq

/-- The conductor fields `end_interview` and `stop_interview` read and write:
`len(self.interview_questions)`, `self.current_question_index`,
`self.use_intrusion_detection`, `self.interview_in_progress` and
`self.stop_recording`. -/
structure ConductorState where
  numQuestions : Nat
  currentIndex : Nat
  use_intrusion_detection : Bool
  interview_in_progress : Bool
  stop_recording : Bool
deriving Repr, DecidableEq

/-- Observable effects of `end_interview`: which final state was announced,
whether `generate_feedback` ran, whether `stop_monitoring` was invoked, and
whether the `INTERVIEW SUMMARY` block was printed. -/
structure EndReport where
  outcome : SessionOutcome
  feedback_requested : Bool
  monitor_stopped : Bool
  summary_reported : Bool
deriving Repr, DecidableEq

/-- `end_interview`: clears `interview_in_progress`, stops the monitor when
intrusion detection was enabled, then branches on
`current_question_index >= len(interview_questions)`: the completed branch
prints the summary and requests feedback; the early-termination branch only
announces that the interview was terminated early. -/
def end_interview (s : ConductorState) : ConductorState × EndReport :=
  let s1 := { s with interview_in_progress := false }
  if s1.numQuestions ≤ s1.currentIndex then
    (s1, { outcome := SessionOutcome.completed, feedback_requested := true,
           monitor_stopped := s1.use_intrusion_detection, summary_reported := true })
  else
    (s1, { outcome := SessionOutcome.terminated, feedback_requested := false,
           monitor_stopped := s1.use_intrusion_detection, summary_reported := false })

/-- `stop_interview` (the external cancellation request): when an interview
is running it clears `interview_in_progress`, sets `stop_recording`, and
stops the monitor when intrusion detection was enabled (the returned flag
records whether `stop_monitoring` was invoked); otherwise a no-op. -/
def stop_interview (s : ConductorState) : ConductorState × Bool :=
  if s.interview_in_progress then
    ({ s with interview_in_progress := false, stop_recording := true },
      s.use_intrusion_detection)
  else
    (s, false)

/-- A concrete mid-session conductor state used as a test vector: three
questions, index 1 (one question answered), intrusion detection enabled,
interview running. -/
def sampleMidSession : ConductorState :=
  { numQuestions := 3, currentIndex := 1, use_intrusion_detection := true,
    interview_in_progress := true, stop_recording := false }

/-! ### Theorems -/

/-- C1: for positive total duration and per-answer time, the derived question
count equals `clamp(floor(totalDurationSeconds / (perAnswerSeconds + 15)), 1, 10)`
with the buffer fixed at 15, and `1 ≤ N ≤ 10`.  Determinism is immediate:
`derive_num_questions` is a pure function of its two arguments. -/
theorem derive_num_questions_clamp (t a : Nat) (ht : 0 < t) (ha : 0 < a) :
    derive_num_questions t a = spec_clamp (t / (a + 15)) 1 10 ∧
    1 ≤ derive_num_questions t a ∧ derive_num_questions t a ≤ 10 := by
  unfold derive_num_questions spec_clamp buffer_time_per_question
  omega

/-- Witness for C1 at the spec's boundary example: 60 seconds total,
45 seconds per answer gives exactly one question. -/
theorem derive_num_questions_clamp_witness :
    derive_num_questions 60 45 = spec_clamp (60 / (45 + 15)) 1 10 ∧
    1 ≤ derive_num_questions 60 45 ∧ derive_num_questions 60 45 ≤ 10 :=
  derive_num_questions_clamp 60 45 (by decide) (by decide)

/-- C2: in the evaluating step, writing `j = idx + 1` for the advanced index,
if `remainingMinutes < 2` and more than one question remains after advancing
(`j < N - 1`), the index is set directly to `N - 1` and the announced skip
count is `N - 1 - j`; otherwise the index advances by exactly one and nothing
is skipped. -/
theorem evaluating_step_skip_ahead (n idx : Nat) (total elapsed : ℚ) :
    (total - elapsed < 2 → idx + 1 < n - 1 →
      evaluating_step n idx total elapsed = (n - 1, some (n - 1 - (idx + 1)))) ∧
    (¬ (total - elapsed < 2 ∧ idx + 1 < n - 1) →
      evaluating_step n idx total elapsed = (idx + 1, none)) := by
  constructor
  · intro hrem hidx
    simp only [evaluating_step, if_pos (And.intro hrem hidx)]
    have h : n - (idx + 1) - 1 = n - 1 - (idx + 1) := by omega
    rw [h]
  · intro hneg
    simp only [evaluating_step, if_neg hneg]

/-- Witness for C2: five questions, question 0 just answered, one minute
remaining: the step jumps to index 4 and announces 3 skipped questions; and
with ample time remaining the step advances from 0 to 1. -/
theorem evaluating_step_skip_ahead_witness :
    evaluating_step 5 0 10 9 = (4, some 3) ∧ evaluating_step 5 0 10 3 = (1, none) := by
  constructor
  · exact (evaluating_step_skip_ahead 5 0 10 9).1 (by norm_num) (by norm_num)
  · exact (evaluating_step_skip_ahead 5 0 10 3).2 (by norm_num)

/-- C3 (behaviour at the failing input): when the collaborator yields zero
usable lines — no response at all, or a response whose parse is empty — the
question list is exactly the first `numQuestions` entries of the fallback
bank in bank order, and the answers list is `numQuestions` empty slots.
No fallback-used flag exists anywhere in the conductor's state to set. -/
theorem generate_questions_zero_usable (n : Nat) (role : String) (resp : Option String)
    (hn : n ≤ 10) (h : usableLines resp = []) :
    (generate_questions n role resp).1 = (genericQuestions role).take n ∧
    (generate_questions n role resp).2 = List.replicate n "" := by
  have hlen : ((genericQuestions role).take n).length = n := by
    have h10 : (genericQuestions role).length = 10 := rfl
    simp only [List.length_take, h10]
    omega
  cases resp with
  | none =>
    exact ⟨rfl, by simp only [generate_questions, hlen]⟩
  | some r =>
    have he : (extractQuestions r).isEmpty = true := by
      simp only [usableLines] at h
      simp [h]
    constructor
    · simp only [generate_questions, he, if_true]
    · simp only [generate_questions, he, if_true, hlen]

/-- Witness for C3: a missing response with a three-question plan adopts the
first three bank entries and three empty answer slots. -/
theorem generate_questions_zero_usable_witness :
    usableLines none = [] ∧
    (generate_questions 3 "chef" none).1 = (genericQuestions "chef").take 3 ∧
    (generate_questions 3 "chef" none).2 = List.replicate 3 "" :=
  ⟨rfl, (generate_questions_zero_usable 3 "chef" none (by decide) rfl).1,
    (generate_questions_zero_usable 3 "chef" none (by decide) rfl).2⟩

/-- C5: on every path of `generate_questions` (truncation, padding, exact
fit, and full fallback) the answers list and the question list both have
length exactly `numQuestions`, and the only later write to either list —
`record_audio`'s slot assignment — preserves the answers list's length. -/
theorem generate_questions_lengths (n : Nat) (role : String) (resp : Option String)
    (h1 : 1 ≤ n) (h2 : n ≤ 10) :
    ((generate_questions n role resp).2.length = (generate_questions n role resp).1.length ∧
      (generate_questions n role resp).1.length = n) ∧
    ∀ (answers : List String) (idx : Nat) (audio : List Fragment) (prog : Bool),
      (record_audio_update answers idx audio prog).length = answers.length := by
  refine ⟨?_, fun answers idx audio prog => List.length_set answers idx _⟩
  have h10 : (genericQuestions role).length = 10 := rfl
  cases resp with
  | none =>
    simp only [generate_questions, List.length_replicate, List.length_take, h10, inf_eq_min,
      true_and]
    omega
  | some r =>
    simp only [generate_questions]
    by_cases he : (extractQuestions r).isEmpty
    · simp only [he, if_true, List.length_replicate, List.length_take, h10, inf_eq_min,
        true_and]
      omega
    · have hq : 0 < (extractQuestions r).length := by
        cases hx : extractQuestions r with
        | nil => rw [hx] at he; simp at he
        | cons a l => simp [hx]
      simp only [he, if_false, Bool.false_eq_true, List.length_replicate, true_and]
      by_cases hgt : n < (extractQuestions r).length
      · simp only [hgt, if_true, List.length_take, inf_eq_min]
        omega
      · by_cases hlt : (extractQuestions r).length < n
        · simp only [hgt, hlt, if_true, if_false, List.length_append, List.length_take, h10,
            inf_eq_min]
          omega
        · simp only [hgt, hlt, if_false]
          omega

/-- Witness for C5: with a four-question plan and a response parsing to two
usable lines, the padded question list and the answers list both have length
four, and a slot write keeps an answers list of length four at length four. -/
theorem generate_questions_lengths_witness :
    ((generate_questions 4 "r" (some "Q one?\nQ two?")).2.length
        = (generate_questions 4 "r" (some "Q one?\nQ two?")).1.length ∧
      (generate_questions 4 "r" (some "Q one?\nQ two?")).1.length = 4) ∧
    (record_audio_update ["", "", "", ""] 2 [some "x"] true).length = 4 := by
  have h := generate_questions_lengths 4 "r" (some "Q one?\nQ two?") (by decide) (by decide)
  exact ⟨h.1, h.2 ["", "", "", ""] 2 [some "x"] true⟩

/-- C8 counterexample: the session is cancelled (`interview_in_progress`
false) after one fragment was captured and transcribed as "hello"; the code
stores the sentinel, not the concatenation "hello" that the claim requires
when fragments were captured before cancellation. -/
theorem record_audio_cancelled_counterexample :
    record_audio_result [some "hello"] false = noAnswerSentinel ∧
    record_audio_result [some "hello"] false ≠ chronological_concat ["hello"] := by
  constructor
  · rfl
  · decide

/-- C8 (amended): the slot text is the chronological space-joined
concatenation of the successfully transcribed fragments, trimmed, whenever
at least one fragment was captured and the session is still in progress; it
is the "no answer recorded" sentinel when no fragments were captured or the
session was cancelled, whether or not fragments had been captured. -/
theorem record_audio_result_spec (audioData : List Fragment) (inProgress : Bool) :
    ((audioData = [] ∨ inProgress = false) →
      record_audio_result audioData inProgress = noAnswerSentinel) ∧
    (audioData ≠ [] → inProgress = true →
      record_audio_result audioData inProgress
        = chronological_concat (audioData.filterMap id)) := by
  constructor
  · intro h
    rcases h with h | h
    · simp [record_audio_result, h]
    · simp [record_audio_result, h]
  · intro hne hprog
    have hfold : ∀ (l : List Fragment) (acc : String),
        l.foldl (fun acc r => match r with
          | some t => acc ++ " " ++ t
          | none => acc) acc
          = (l.filterMap id).foldl (fun acc t => acc ++ " " ++ t) acc := by
      intro l
      induction l with
      | nil => intro acc; rfl
      | cons hd tl ih =>
        intro acc
        cases hd with
        | none => simp only [List.foldl_cons, List.filterMap_cons, id, ih]
        | some t => simp only [List.foldl_cons, List.filterMap_cons, id, ih]
    have hcond : (!audioData.isEmpty && inProgress) = true := by
      cases audioData with
      | nil => exact absurd rfl hne
      | cons a l => simp [hprog]
    simp only [record_audio_result, hcond, if_true, chronological_concat, hfold]

/-- Witness for C8: no fragments with the session cancelled gives the
sentinel; three fragments of which the middle one fails transcription give
the concatenation of the two successes. -/
theorem record_audio_result_spec_witness :
    record_audio_result [] false = noAnswerSentinel ∧
    record_audio_result [some "a", none, some "b"] true = chronological_concat ["a", "b"] := by
  constructor
  · exact (record_audio_result_spec [] false).1 (Or.inl rfl)
  · have h := (record_audio_result_spec [some "a", none, some "b"] true).2 (by decide) rfl
    have hf : (List.filterMap id [some "a", none, some "b"] : List String) = ["a", "b"] := rfl
    rw [hf] at h
    exact h

/-- C6 counterexample: a 640×480 frame with a detected face at
`(x, y, w, h) = (610, 450, 30, 30)` (near the bottom-right corner) gives
`x2 = min(640, 610 + 30 + 20) = 640`, which is not strictly below the frame
width 640 as the claim requires. -/
theorem padded_bbox_edge_counterexample :
    (padded_bbox 640 480 610 450 30 30).2.2.1 = 640 ∧
    ¬ (padded_bbox 640 480 610 450 30 30).2.2.1 < 640 := by
  constructor
  · decide
  · decide

/-- C6 (amended): for every frame size and detected face rectangle, the
stored box satisfies `0 ≤ x1`, `0 ≤ y1`, `x2 ≤ frameWidth` and
`y2 ≤ frameHeight` — the exclusive ends `x2`, `y2` can equal the frame
dimensions for a face at the edge, so the cropped region
`[x1, x2) × [y1, y2)` stays inside the frame. -/
theorem padded_bbox_in_frame (frameW frameH x y w h : ℤ) :
    0 ≤ (padded_bbox frameW frameH x y w h).1 ∧
    0 ≤ (padded_bbox frameW frameH x y w h).2.1 ∧
    (padded_bbox frameW frameH x y w h).2.2.1 ≤ frameW ∧
    (padded_bbox frameW frameH x y w h).2.2.2 ≤ frameH := by
  simp only [padded_bbox]
  exact ⟨le_max_left 0 _, le_max_left 0 _, min_le_left _ _, min_le_left _ _⟩

/-- C7: a frame whose difference fraction is exactly the threshold 3/10 does
not signal an intrusion, and an intrusion is signalled exactly when the
fraction strictly exceeds 3/10. -/
theorem check_intrusion_strict (pixels : List (Nat × Nat)) :
    (diff_fraction pixels = intrusion_threshold → check_intrusion pixels = false) ∧
    (check_intrusion pixels = true ↔ intrusion_threshold < diff_fraction pixels) := by
  constructor
  · intro h
    simp only [check_intrusion, h, decide_eq_false_iff_not]
    exact lt_irrefl _
  · simp only [check_intrusion, decide_eq_true_eq]

/-- Witness for C7: a ten-pixel region in which exactly three pixels differ
by more than the cutoff has difference fraction exactly 3/10 and does not
trigger. -/
theorem check_intrusion_strict_witness :
    diff_fraction
        [(0, 100), (0, 100), (0, 100), (0, 0), (0, 0), (0, 0), (0, 0), (0, 0), (0, 0),
          (0, 0)] = intrusion_threshold ∧
    check_intrusion
        [(0, 100), (0, 100), (0, 100), (0, 0), (0, 0), (0, 0), (0, 0), (0, 0), (0, 0),
          (0, 0)] = false := by
  have h : diff_fraction
      [(0, 100), (0, 100), (0, 100), (0, 0), (0, 0), (0, 0), (0, 0), (0, 0), (0, 0),
        (0, 0)] = intrusion_threshold := by
    simp only [diff_fraction, intrusion_threshold]
    norm_num [List.countP, List.countP.go, pixel_diff_cutoff, Nat.dist]
  exact ⟨h, (check_intrusion_strict _).1 h⟩

/-- Helper for C4: one loop iteration never decreases the counter, and when
it does increment, the recorded event time exceeds the stored last event
time by more than the cooldown and becomes the new stored time. -/
theorem monitor_iteration_count_le (s : DetectorState) (roi : List (Nat × Nat)) (t : ℚ) :
    s.intrusion_count ≤ (monitor_iteration s roi t).intrusion_count := by
  unfold monitor_iteration
  split
  · exact Nat.le_succ _
  · exact le_refl _

/-- Helper for C4: the run's counter is monotone from any starting state. -/
theorem run_monitor_count_le (frames : List (List (Nat × Nat) × ℚ)) :
    ∀ s : DetectorState, s.intrusion_count ≤ (run_monitor s frames).intrusion_count := by
  induction frames with
  | nil => intro s; exact le_refl _
  | cons f rest ih =>
    intro s
    calc s.intrusion_count ≤ (monitor_iteration s f.1 f.2).intrusion_count :=
          monitor_iteration_count_le s f.1 f.2
      _ ≤ (run_monitor (monitor_iteration s f.1 f.2) rest).intrusion_count :=
          ih (monitor_iteration s f.1 f.2)

/-- Helper for C4: every recorded event time exceeds the previously stored
event time by more than the cooldown, chained from the initial stored time. -/
theorem intrusion_event_times_chain (frames : List (List (Nat × Nat) × ℚ)) :
    ∀ s : DetectorState,
      List.Chain (fun a b => a + intrusion_cooldown < b) s.last_intrusion_time
        (intrusion_event_times s frames) := by
  induction frames with
  | nil => intro s; exact List.Chain.nil
  | cons f rest ih =>
    intro s
    show List.Chain _ _ (intrusion_event_times s (f :: rest))
    rw [intrusion_event_times]
    by_cases hc : s.intrusion_count < (monitor_iteration s f.1 f.2).intrusion_count
    · have hcond : s.monitoring ∧ check_intrusion f.1 = true ∧
          intrusion_cooldown < f.2 - s.last_intrusion_time := by
        by_contra hn
        rw [monitor_iteration, if_neg hn] at hc
        exact lt_irrefl _ hc
      have hstep : monitor_iteration s f.1 f.2 =
          { s with intrusion_count := s.intrusion_count + 1,
                   last_intrusion_time := f.2 } := by
        rw [monitor_iteration, if_pos hcond]
      simp only [hc, if_true]
      refine List.Chain.cons ?_ ?_
      · have := hcond.2.2
        linarith
      · have h2 := ih (monitor_iteration s f.1 f.2)
        rw [hstep] at h2 ⊢
        exact h2
    · simp only [hc, if_false]
      have hstep : monitor_iteration s f.1 f.2 = s := by
        by_cases hcond : s.monitoring ∧ check_intrusion f.1 = true ∧
            intrusion_cooldown < f.2 - s.last_intrusion_time
        · exfalso
          rw [monitor_iteration, if_pos hcond] at hc
          exact hc (Nat.lt_succ_self _)
        · rw [monitor_iteration, if_neg hcond]
      rw [hstep]
      exact ih s

/-- C4: over any single monitoring run — any frame feed with arbitrary wall
clock times, so the property does not rest on loop cadence — the counter
only increases, and the recorded event times, seeded with the stored
last-event time the explicit check compares against, are consecutively
separated by at least the cooldown of 5 seconds. -/
theorem monitor_count_mono_and_cooldown (s : DetectorState)
    (frames : List (List (Nat × Nat) × ℚ)) :
    s.intrusion_count ≤ (run_monitor s frames).intrusion_count ∧
    List.Chain (fun a b => intrusion_cooldown ≤ b - a) s.last_intrusion_time
      (intrusion_event_times s frames) := by
  refine ⟨run_monitor_count_le frames s, ?_⟩
  refine List.Chain.imp ?_ (intrusion_event_times_chain frames s)
  intro a b hab
  linarith

/-- C10: starting from a fresh `IntrusionDetector()`, after any sequence of
captures, starts, stops and monitor-loop iterations, the status snapshot
reports `intrusion_detected = False`: no operation ever sets it to `True`. -/
theorem intrusion_detected_always_false (ops : List DetectorOp) :
    (get_intrusion_status (runDetector ops)).intrusion_detected = false := by
  suffices h : ∀ s : DetectorState, s.intrusion_detected = false →
      (ops.foldl detector_apply s).intrusion_detected = false by
    exact h initDetector rfl
  induction ops with
  | nil => intro s hs; exact hs
  | cons op rest ih =>
    intro s hs
    refine ih (detector_apply s op) ?_
    cases op with
    | capture ok =>
      show (capture_reference_face s ok).intrusion_detected = false
      unfold capture_reference_face
      split
      · exact hs
      · exact hs
    | start =>
      show (start_monitoring s).intrusion_detected = false
      unfold start_monitoring
      split
      · exact hs
      · split
        · exact hs
        · rfl
    | stop => exact hs
    | monitor roi t =>
      show (monitor_iteration s roi t).intrusion_detected = false
      unfold monitor_iteration
      split
      · exact hs
      · exact hs

/-- C9 counterexample: with three questions, cancellation after question 0
(index 1 < 3) ends in the terminated branch, which reports no
summary-so-far — the code only announces "terminated early", contradicting
the claim's reported summary. -/
theorem end_interview_no_summary_counterexample :
    (end_interview sampleMidSession).2.outcome = SessionOutcome.terminated ∧
    (end_interview sampleMidSession).2.summary_reported = false := by
  constructor
  · rfl
  · rfl

/-- C9 (amended): a cancellation request arriving mid-cycle
(`currentIndex < N` with the interview running) clears the in-progress flag,
stops the monitor when intrusion detection was enabled, and finalisation
ends in `Terminated`, skips feedback generation, stops the monitor again,
and reports no summary (only the early-termination announcement). -/
theorem cancellation_terminates (s : ConductorState)
    (hprog : s.interview_in_progress = true)
    (hidx : s.currentIndex < s.numQuestions) :
    (stop_interview s).2 = s.use_intrusion_detection ∧
    (stop_interview s).1.interview_in_progress = false ∧
    (end_interview (stop_interview s).1).2.outcome = SessionOutcome.terminated ∧
    (end_interview (stop_interview s).1).2.feedback_requested = false ∧
    (end_interview (stop_interview s).1).2.monitor_stopped
      = s.use_intrusion_detection ∧
    (end_interview (stop_interview s).1).2.summary_reported = false := by
  have hnot : ¬ (s.numQuestions ≤ s.currentIndex) := by omega
  simp only [stop_interview, hprog, if_true, end_interview, hnot, if_false]
  simp

/-- Witness for C9: a running three-question session cancelled at index 1
stops the monitor, ends terminated, skips feedback and reports no summary. -/
theorem cancellation_terminates_witness :
    (stop_interview sampleMidSession).2 = true ∧
    (stop_interview sampleMidSession).1.interview_in_progress = false ∧
    (end_interview (stop_interview sampleMidSession).1).2.outcome
      = SessionOutcome.terminated ∧
    (end_interview (stop_interview sampleMidSession).1).2.feedback_requested = false ∧
    (end_interview (stop_interview sampleMidSession).1).2.monitor_stopped = true ∧
    (end_interview (stop_interview sampleMidSession).1).2.summary_reported = false :=
  cancellation_terminates sampleMidSession rfl (by decide)

end InterviewProctor
